import Mathlib

/-!
# Verification of the magicmirror streaming client

A shallow embedding of the streaming-session logic of the `magicmirror`
repository (the `WarpPage` components), together with proofs about the
inbound frame buffer and display scheduler, the reconnection backoff,
the outbound frame throttle, and the audio transcription cycle.

The repository contains two main variants of the pipeline:
* `src/unnamed/part_001` (the most recent variant, with health checks and
  reconnect-attempt counting) — its `ws.onmessage` handler pushes every
  decoded frame onto the queue unconditionally;
* `src/web/src/components/WarpPage.tsx` — its `socket.onmessage` handler
  appends a decoded frame only when the queue length is strictly below
  `MAX_BUFFER_SIZE`.

Both variants share the same `displayNextFrame` scheduler, which performs
an overflow skip (dropping the oldest half of the queue) before beginning
a crossfade transition, and pops the consumed head frame when the fade
completes.
-/

namespace MagicMirror

/-- `FRAME_INTERVAL = 250` — send 4 frames per second (`part_001` line 7). -/
def FRAME_INTERVAL : Nat := 250

/-- `MAX_BUFFER_SIZE = 16` — bound on the inbound frame queue (`part_001` line 8). -/
def MAX_BUFFER_SIZE : Nat := 16

/-- `DISPLAY_DURATION = 0` — time to show each frame before transition (`part_001` line 9). -/
def DISPLAY_DURATION : Nat := 0

/-- `SCROLL_DURATION = 5` — seconds to keep caption text visible (`part_001` line 11). -/
def SCROLL_DURATION : Nat := 5

/-- `MAX_RECONNECT_ATTEMPTS = 10` (`part_001` line 20). -/
def MAX_RECONNECT_ATTEMPTS : Nat := 10

/-- `INITIAL_RECONNECT_DELAY = 1000` ms (`part_001` line 21). -/
def INITIAL_RECONNECT_DELAY : Nat := 1000

/-- `MAX_RECONNECT_DELAY = 30000` ms (`part_001` line 22). -/
def MAX_RECONNECT_DELAY : Nat := 30000

/-!
## Inbound frame buffer and display scheduler

Frames are identified by natural numbers (arrival indices).  The state
mirrors the mutable refs of `WarpPage`: `frameQueueRef`,
`isTransitioningRef`, `lastTransitionTime`, and the canvas-role flag.
`displayed`, `arrived`, `began` and `completed` are ghost fields recording
the history of the run (frames popped for display, frames whose decode
completed, transitions begun and completed).
-/

structure DisplayState where
  frameQueue : List Nat
  isTransitioning : Bool
  lastTransitionTime : Nat
  firstCanvasCurrent : Bool
  displayed : List Nat
  arrived : List Nat
  began : Nat
  completed : Nat
deriving DecidableEq

/-- The initial state: empty queue, no transition in flight. -/
def initState : DisplayState :=
  { frameQueue := [], isTransitioning := false, lastTransitionTime := 0,
    firstCanvasCurrent := true, displayed := [], arrived := [],
    began := 0, completed := 0 }

/-- `ws.onmessage` decode completion in `src/unnamed/part_001` (lines 358–369):
`img.onload` pushes the decoded image onto the queue unconditionally
(`frameQueueRef.current.push(img)`). -/
def wsOnMessage (s : DisplayState) (f : Nat) : DisplayState :=
  { s with frameQueue := s.frameQueue ++ [f], arrived := s.arrived ++ [f] }

/-- `socket.onmessage` decode completion in
`src/web/src/components/WarpPage.tsx` (lines 277–283): the decoded image is
appended only if the queue length is strictly below `MAX_BUFFER_SIZE`,
otherwise it is dropped. -/
def socketOnMessage (s : DisplayState) (f : Nat) : DisplayState :=
  { s with
    frameQueue :=
      if s.frameQueue.length < MAX_BUFFER_SIZE then s.frameQueue ++ [f]
      else s.frameQueue,
    arrived := s.arrived ++ [f] }

/-- The overflow skip of `displayNextFrame` (`part_001` lines 208–213): if the
queue length exceeds `MAX_BUFFER_SIZE / 2`, drop the oldest
`Math.floor(length / 2)` entries, keeping the freshest suffix. -/
def skipOverflow (q : List Nat) : List Nat :=
  if q.length > MAX_BUFFER_SIZE / 2 then q.drop (q.length / 2) else q

/-- One display-refresh tick of `displayNextFrame` (`part_001` lines 200–291)
up to the point where the transition begins: if no transition is in flight,
the queue is non-empty and at least `DISPLAY_DURATION` has elapsed since the
last transition, apply the overflow skip, read the head frame and begin a
transition (set `isTransitioningRef` to true).  The canvases are assumed
present, matching the `nextFrame && nextCtx && nextCanvas` guard. -/
def displayNextFrame (s : DisplayState) (now : Nat) : DisplayState :=
  if s.isTransitioning = false ∧ s.frameQueue ≠ [] ∧
      DISPLAY_DURATION ≤ now - s.lastTransitionTime then
    match skipOverflow s.frameQueue with
    | [] => { s with frameQueue := [] }
    | _ :: _ =>
      { s with frameQueue := skipOverflow s.frameQueue,
               isTransitioning := true, began := s.began + 1 }
  else s

/-- Completion of the crossfade (`part_001` lines 263–284, the `else` branch
of `fade`): swap the canvas roles, pop the consumed head frame from the
queue, reset the transition timer and clear `isTransitioningRef`.  Only
fires while a transition is in flight. -/
def fadeComplete (s : DisplayState) (now : Nat) : DisplayState :=
  { s with frameQueue := s.frameQueue.drop 1,
           displayed := s.displayed ++ s.frameQueue.take 1,
           firstCanvasCurrent := !s.firstCanvasCurrent,
           lastTransitionTime := now,
           isTransitioning := false,
           completed := s.completed + 1 }

/-- The event-step relation for the `part_001` variant (unconditional push). -/
inductive Step : DisplayState → DisplayState → Prop where
  | arrive (s : DisplayState) (f : Nat) : Step s (wsOnMessage s f)
  | tick (s : DisplayState) (now : Nat) : Step s (displayNextFrame s now)
  | complete (s : DisplayState) (now : Nat) (h : s.isTransitioning = true) :
      Step s (fadeComplete s now)

/-- States reachable in the `part_001` variant. -/
inductive Reach : DisplayState → Prop where
  | init : Reach initState
  | step {s t : DisplayState} : Reach s → Step s t → Reach t

/-- The event-step relation for the `src/web` variant (bounded push). -/
inductive StepW : DisplayState → DisplayState → Prop where
  | arrive (s : DisplayState) (f : Nat) : StepW s (socketOnMessage s f)
  | tick (s : DisplayState) (now : Nat) : StepW s (displayNextFrame s now)
  | complete (s : DisplayState) (now : Nat) (h : s.isTransitioning = true) :
      StepW s (fadeComplete s now)

/-- States reachable in the `src/web` variant. -/
inductive ReachW : DisplayState → Prop where
  | init : ReachW initState
  | step {s t : DisplayState} : ReachW s → StepW s t → ReachW t

/-- A burst of decode completions in the `part_001` variant. -/
def arriveMany (s : DisplayState) (fs : List Nat) : DisplayState :=
  fs.foldl wsOnMessage s

/-- A burst of decode completions in the `src/web` variant. -/
def arriveManyW (s : DisplayState) (fs : List Nat) : DisplayState :=
  fs.foldl socketOnMessage s

/-!
## Session manager: reconnection backoff

Mirrors `ws.onclose` (`part_001` lines 383–402) and `ws.onopen`
(lines 324–333).  `scheduledDelay` records the delay of the reconnection
scheduled by the most recent close (`none` when none was scheduled);
`terminalRestart` records the `window.location.reload()` escalation.
-/

structure ConnState where
  reconnectAttempts : Nat
  scheduledDelay : Option Nat
  terminalRestart : Bool
deriving DecidableEq

/-- Fresh connection state: `reconnectAttemptsRef.current = 0`. -/
def initConn : ConnState :=
  { reconnectAttempts := 0, scheduledDelay := none, terminalRestart := false }

/-- `ws.onopen` (`part_001` line 327): reset the attempt counter to 0. -/
def wsOnOpen (s : ConnState) : ConnState :=
  { s with reconnectAttempts := 0 }

/-- `ws.onclose` (`part_001` lines 383–402): compute
`delay = min(INITIAL_RECONNECT_DELAY * 2^attempts, MAX_RECONNECT_DELAY)`,
increment the attempt counter, then schedule a reconnection after `delay`
if the counter is still ≤ `MAX_RECONNECT_ATTEMPTS`, else reload the page. -/
def wsOnClose (s : ConnState) : ConnState :=
  let delay := min (INITIAL_RECONNECT_DELAY * 2 ^ s.reconnectAttempts) MAX_RECONNECT_DELAY
  let attempts := s.reconnectAttempts + 1
  if attempts ≤ MAX_RECONNECT_ATTEMPTS then
    { reconnectAttempts := attempts, scheduledDelay := some delay,
      terminalRestart := false }
  else
    { reconnectAttempts := attempts, scheduledDelay := none,
      terminalRestart := true }

/-- `iterClose k` is the state after `k` consecutive closes from a fresh
connection (no successful open in between). -/
def iterClose : Nat → ConnState
  | 0 => initConn
  | n + 1 => wsOnClose (iterClose n)

/-!
## Transcription cycle and caption overlay

Mirrors `transcribe` (`part_001` lines 412–442), `addTranscript`
(lines 110–117) and `handleAuthenticated` (lines 704–708).
-/

structure TranscriptEntry where
  text : String
  timestamp : Nat
deriving DecidableEq

structure AuthState where
  serverPassword : Option String
  isAuthenticated : Bool
  authToken : Option String
  transcripts : List TranscriptEntry
  totalTranscripts : Nat
deriving DecidableEq

/-- `addTranscript` (`part_001` lines 110–117): increment the counter,
append the new entry stamped `now`, and filter out entries older than
`SCROLL_DURATION` seconds. -/
def addTranscript (s : AuthState) (text : String) (now : Nat) : AuthState :=
  { s with
    totalTranscripts := s.totalTranscripts + 1,
    transcripts :=
      (s.transcripts ++ [({ text := text, timestamp := now } : TranscriptEntry)]).filter
        (fun t => now - t.timestamp < SCROLL_DURATION * 1000) }

/-- Outcome of the transcription HTTP upload: a 401 response, a JSON body
whose `text` field is the given string (`""` models a missing or empty
field, which is falsy in `if (data.text)`), or a network error caught by
the `catch` block. -/
inductive TResponse where
  | unauthorized
  | ok (text : String)
  | networkError
deriving DecidableEq

/-- `transcribe` (`part_001` lines 412–442).  Returns the updated state and
whether an upload was performed.  If `serverPassword` is null the function
returns before any upload.  On a 401 it clears `isAuthenticated` and
`serverPassword` and returns without adding a transcript.  On success it
adds a transcript only when `data.text` is truthy (non-empty). -/
def transcribe (s : AuthState) (now : Nat) (resp : TResponse) : AuthState × Bool :=
  match s.serverPassword with
  | none => (s, false)
  | some _ =>
    match resp with
    | TResponse.unauthorized =>
      ({ s with isAuthenticated := false, serverPassword := none }, true)
    | TResponse.ok text =>
      (if text ≠ "" then addTranscript s text now else s, true)
    | TResponse.networkError => (s, true)

/-- `handleAuthenticated` (`part_001` lines 704–708): a new credential is
supplied. -/
def handleAuthenticated (s : AuthState) (password : String) : AuthState :=
  { s with isAuthenticated := true, authToken := some password,
           serverPassword := some password }

/-- A sample authenticated state, for concrete instantiations. -/
def sampleAuth : AuthState :=
  { serverPassword := some "pw", isAuthenticated := true,
    authToken := some "pw", transcripts := [], totalTranscripts := 0 }

/-!
## Outbound pipeline

Mirrors `sendFrame` (`part_001` lines 473–499): a tick fires every
`FRAME_INTERVAL / 2`; the frame is sent only when at least `FRAME_INTERVAL`
has elapsed since the last successful send, the component believes the
connection is up (`wsStatus === 'connected'` with the video element
present), and the socket is open at send time; `lastFrameTime` is updated
only on a successful send.
-/

structure SendState where
  lastFrameTime : Nat
  sentTimes : List Nat
deriving DecidableEq

/-- Initial outbound state: `let lastFrameTime = 0`. -/
def initSend : SendState :=
  { lastFrameTime := 0, sentTimes := [] }

/-- One `sendFrame` tick at wall-clock `now`.  `connected` models
`videoRef.current && wsStatus === 'connected'`; `socketOpen` models
`blob && socketRef.current.readyState === WebSocket.OPEN`. -/
def sendFrame (s : SendState) (now : Nat) (connected socketOpen : Bool) : SendState :=
  if now - s.lastFrameTime < FRAME_INTERVAL then s
  else if connected && socketOpen then
    { lastFrameTime := now, sentTimes := s.sentTimes ++ [now] }
  else s

/-- A run of `sendFrame` ticks, each a `(now, connected, socketOpen)` triple. -/
def runSend (s : SendState) : List (Nat × Bool × Bool) → SendState
  | [] => s
  | t :: ts => runSend (sendFrame s t.1 t.2.1 t.2.2) ts

/-- Successive sent frames are at least `FRAME_INTERVAL` apart. -/
def gapOK (l : List Nat) : Prop :=
  List.Chain' (fun a b => a + FRAME_INTERVAL ≤ b) l

/-!
## Audio capture cycle

Mirrors `mediaRecorder.ondataavailable` (`part_001` lines 537–541) and
`mediaRecorder.onstop` (lines 543–561).  Audio chunks are modelled by
their sizes.
-/

/-- `ondataavailable`: push the chunk only if `event.data.size > 0`. -/
def onDataAvailable (chunks : List Nat) (size : Nat) : List Nat :=
  if 0 < size then chunks ++ [size] else chunks

/-- `mediaRecorder.onstop` (`part_001` lines 543–561): if no chunks are
buffered, return immediately; otherwise build the blob from the chunks,
clear the buffer, and upload the blob through `transcribe`.  Returns the
updated auth state, the remaining chunk buffer, the blob that was built
(if any), and whether an upload was performed. -/
def mediaRecorderOnStop (s : AuthState) (chunks : List Nat) (now : Nat)
    (resp : TResponse) : AuthState × List Nat × Option (List Nat) × Bool :=
  if chunks = [] then (s, chunks, none, false)
  else
    let audioBlob := chunks
    let r := transcribe s now resp
    (r.1, [], some audioBlob, r.2)

/-!
## Helper lemmas
-/

theorem reach_arriveMany (s : DisplayState) (hs : Reach s) (fs : List Nat) :
    Reach (arriveMany s fs) := by
  induction fs generalizing s with
  | nil => exact hs
  | cons f fs ih => exact ih _ (hs.step (Step.arrive s f))

theorem reachW_arriveManyW (s : DisplayState) (hs : ReachW s) (fs : List Nat) :
    ReachW (arriveManyW s fs) := by
  induction fs generalizing s with
  | nil => exact hs
  | cons f fs ih => exact ih _ (hs.step (StepW.arrive s f))

theorem arriveMany_frameQueue (s : DisplayState) (fs : List Nat) :
    (arriveMany s fs).frameQueue = s.frameQueue ++ fs := by
  induction fs generalizing s with
  | nil => simp [arriveMany]
  | cons f fs ih =>
    simp only [arriveMany, List.foldl_cons] at *
    rw [ih]
    simp [wsOnMessage]

theorem skipOverflow_length_le (q : List Nat) : (skipOverflow q).length ≤ q.length := by
  unfold skipOverflow
  split
  · simp only [List.length_drop]
    omega
  · exact le_refl _

theorem skipOverflow_ne_nil (q : List Nat) (h : q ≠ []) : skipOverflow q ≠ [] := by
  have hq : 0 < q.length := List.length_pos.mpr h
  unfold skipOverflow
  split
  · have : 0 < (q.drop (q.length / 2)).length := by
      simp only [List.length_drop]
      omega
    exact List.length_pos.mp this
  · exact h

theorem skipOverflow_sublist (q : List Nat) : (skipOverflow q).Sublist q := by
  unfold skipOverflow
  split
  · exact List.drop_sublist _ _
  · exact List.Sublist.refl _

/-- When the tick fires (no transition in flight, non-empty queue), the
scheduler performs the overflow skip and begins a transition. -/
theorem displayNextFrame_fires (s : DisplayState) (now : Nat)
    (h1 : s.isTransitioning = false) (h2 : s.frameQueue ≠ []) :
    displayNextFrame s now =
      { s with frameQueue := skipOverflow s.frameQueue,
               isTransitioning := true, began := s.began + 1 } := by
  unfold displayNextFrame
  rw [if_pos ⟨h1, h2, Nat.zero_le _⟩]
  split
  · next heq => exact absurd heq (skipOverflow_ne_nil _ h2)
  · rfl

/-- The tick only ever replaces the queue by its overflow skip (or leaves
it alone). -/
theorem displayNextFrame_queue (s : DisplayState) (now : Nat) :
    (displayNextFrame s now).frameQueue = skipOverflow s.frameQueue ∨
    (displayNextFrame s now).frameQueue = s.frameQueue := by
  unfold displayNextFrame
  split
  · split
    · next heq => left; rw [heq]
    · left; rfl
  · right; rfl

theorem displayNextFrame_ghost (s : DisplayState) (now : Nat) :
    (displayNextFrame s now).firstCanvasCurrent = s.firstCanvasCurrent ∧
    (displayNextFrame s now).displayed = s.displayed ∧
    (displayNextFrame s now).arrived = s.arrived ∧
    (displayNextFrame s now).completed = s.completed := by
  unfold displayNextFrame
  split
  · split <;> exact ⟨rfl, rfl, rfl, rfl⟩
  · exact ⟨rfl, rfl, rfl, rfl⟩

/-- A tick never fires while a transition is in flight. -/
theorem displayNextFrame_skip_when_transitioning (s : DisplayState) (now : Nat)
    (h : s.isTransitioning = true) : displayNextFrame s now = s := by
  unfold displayNextFrame
  rw [if_neg]
  intro hc
  rw [h] at hc
  exact absurd hc.1 (by simp)

/-- In the `src/web` variant the frame queue never exceeds
`MAX_BUFFER_SIZE`. -/
theorem reachW_queue_bound (s : DisplayState) (hs : ReachW s) :
    s.frameQueue.length ≤ MAX_BUFFER_SIZE := by
  induction hs with
  | init => exact Nat.zero_le _
  | @step u t hr hstep ih =>
    cases hstep with
    | arrive f =>
      unfold socketOnMessage
      dsimp only
      split
      · next hlt => simpa using hlt
      · exact ih
    | tick now =>
      rcases displayNextFrame_queue u now with h | h <;> rw [h]
      · exact le_trans (skipOverflow_length_le _) ih
      · exact ih
    | complete now h =>
      unfold fadeComplete
      dsimp only
      simp only [List.length_drop]
      omega

/-- Transition-counter invariant: transitions complete no more often than
they begin, at most one is in flight, and `isTransitioning` tracks the
difference exactly. -/
theorem reach_transition_counters (s : DisplayState) (hs : Reach s) :
    s.completed ≤ s.began ∧ s.began ≤ s.completed + 1 ∧
      (s.isTransitioning = true ↔ s.began = s.completed + 1) := by
  induction hs with
  | init => refine ⟨le_refl _, by simp [initState], by simp [initState]⟩
  | @step u t hr hstep ih =>
    obtain ⟨ih1, ih2, ih3⟩ := ih
    cases hstep with
    | arrive f => exact ⟨ih1, ih2, ih3⟩
    | tick now =>
      by_cases ht : u.isTransitioning = true
      · rw [displayNextFrame_skip_when_transitioning u now ht]
        exact ⟨ih1, ih2, ih3⟩
      · have ht' : u.isTransitioning = false := by
          cases h : u.isTransitioning
          · rfl
          · exact absurd h ht
        have hne : ¬u.began = u.completed + 1 := fun h => ht (ih3.mpr h)
        by_cases hq : u.frameQueue = []
        · unfold displayNextFrame
          rw [if_neg (fun hc => hc.2.1 hq)]
          exact ⟨ih1, ih2, ih3⟩
        · rw [displayNextFrame_fires u now ht' hq]
          refine ⟨?_, ?_, ?_⟩ <;> dsimp only
          · omega
          · omega
          · exact iff_of_true rfl (by omega)
    | complete now h =>
      have heq : u.began = u.completed + 1 := ih3.mp h
      unfold fadeComplete
      refine ⟨?_, ?_, ?_⟩ <;> dsimp only
      · omega
      · omega
      · exact iff_of_false (by simp) (by omega)

/-- History invariant for the `part_001` variant: the displayed frames
followed by the still-queued frames form a sublist of the arrival
sequence. -/
theorem reach_displayed_queue_sublist (s : DisplayState) (hs : Reach s) :
    (s.displayed ++ s.frameQueue).Sublist s.arrived := by
  induction hs with
  | init => simp [initState]
  | @step u t hr hstep ih =>
    cases hstep with
    | arrive f =>
      unfold wsOnMessage
      dsimp only
      rw [← List.append_assoc]
      exact List.Sublist.append ih (List.Sublist.refl _)
    | tick now =>
      have hg := displayNextFrame_ghost u now
      rcases displayNextFrame_queue u now with h | h
      · rw [hg.2.1, hg.2.2.1, h]
        exact List.Sublist.trans
          (List.Sublist.append_left (skipOverflow_sublist _) _) ih
      · rw [hg.2.1, hg.2.2.1, h]
        exact ih
    | complete now h =>
      unfold fadeComplete
      dsimp only
      rw [List.append_assoc, List.take_append_drop]
      exact ih

theorem iterClose_attempts (k : Nat) : (iterClose k).reconnectAttempts = k := by
  induction k with
  | zero => rfl
  | succ n ih =>
    show (wsOnClose (iterClose n)).reconnectAttempts = n + 1
    unfold wsOnClose
    dsimp only
    split <;> dsimp only <;> rw [ih]

/-- `sendFrame` run invariant: sent times respect the frame interval and
never exceed the recorded last send time. -/
theorem sendFrame_inv (s : SendState) (now : Nat) (c o : Bool)
    (h : gapOK s.sentTimes ∧ ∀ t ∈ s.sentTimes, t ≤ s.lastFrameTime) :
    gapOK (sendFrame s now c o).sentTimes ∧
      ∀ t ∈ (sendFrame s now c o).sentTimes, t ≤ (sendFrame s now c o).lastFrameTime := by
  obtain ⟨h1, h2⟩ := h
  unfold sendFrame
  by_cases hlt : now - s.lastFrameTime < FRAME_INTERVAL
  · rw [if_pos hlt]
    exact ⟨h1, h2⟩
  · rw [if_neg hlt]
    by_cases hco : (c && o) = true
    · rw [if_pos hco]
      dsimp only
      have hnow : s.lastFrameTime + FRAME_INTERVAL ≤ now := by
        unfold FRAME_INTERVAL at hlt ⊢
        omega
      constructor
      · unfold gapOK at h1 ⊢
        rw [List.chain'_append]
        refine ⟨h1, List.chain'_singleton _, ?_⟩
        intro x hx y hy
        simp only [List.head?_cons, Option.mem_def, Option.some.injEq] at hy
        subst hy
        obtain ⟨hne, rfl⟩ := List.mem_getLast?_eq_getLast hx
        have := h2 _ (List.getLast_mem hne)
        omega
      · intro t ht
        rcases List.mem_append.mp ht with hmem | hmem
        · have := h2 t hmem
          omega
        · simp only [List.mem_singleton] at hmem
          omega
    · rw [if_neg hco]
      exact ⟨h1, h2⟩

theorem runSend_inv (ts : List (Nat × Bool × Bool)) (s : SendState)
    (h : gapOK s.sentTimes ∧ ∀ t ∈ s.sentTimes, t ≤ s.lastFrameTime) :
    gapOK (runSend s ts).sentTimes := by
  induction ts generalizing s with
  | nil => exact h.1
  | cons t ts ih => exact ih _ (sendFrame_inv s t.1 t.2.1 t.2.2 h)

/-!
## Claim theorems
-/

/-- C1 (counterexample): in the `part_001` variant the claim fails — 17
decode completions from the empty queue with no scheduler ticks are all
appended, so the queue length reaches 17 > `MAX_BUFFER_SIZE`; the 17th
frame is appended even though the queue length is not `< MAX_BUFFER_SIZE`. -/
theorem C1_counterexample :
    Reach (arriveMany initState (List.range 17)) ∧
    MAX_BUFFER_SIZE < (arriveMany initState (List.range 17)).frameQueue.length := by
  refine ⟨reach_arriveMany initState Reach.init _, ?_⟩
  rw [arriveMany_frameQueue]
  decide

/-- C1 (amended): in the `src/web/src/components/WarpPage.tsx` variant a
decoded frame is appended exactly when the queue length is strictly below
`MAX_BUFFER_SIZE` (and dropped otherwise), and consequently the queue
length never exceeds `MAX_BUFFER_SIZE` in any reachable state.  The
`src/unnamed/part_001` variant appends unconditionally. -/
theorem C1_bounded_queue_web :
    (∀ s f, (socketOnMessage s f).frameQueue =
      if s.frameQueue.length < MAX_BUFFER_SIZE then s.frameQueue ++ [f]
      else s.frameQueue) ∧
    (∀ s, ReachW s → s.frameQueue.length ≤ MAX_BUFFER_SIZE) := by
  exact ⟨fun s f => rfl, fun s hs => reachW_queue_bound s hs⟩

/-- C1 witness: the amended theorem applied at the initial state. -/
theorem C1_witness :
    (socketOnMessage initState 0).frameQueue = [0] ∧
    initState.frameQueue.length ≤ MAX_BUFFER_SIZE := by
  refine ⟨?_, C1_bounded_queue_web.2 initState ReachW.init⟩
  rw [C1_bounded_queue_web.1 initState 0]
  decide

/-- C2 (counterexample): 20 frames decoded in rapid succession from the
empty queue with no consumption.  In the `part_001` variant nothing is
dropped (the queue holds all 20); in the `src/web` variant the queue holds
the 16 **oldest** frames, not the 16 newest as claimed. -/
theorem C2_counterexample :
    (arriveMany initState (List.range 20)).frameQueue = List.range 20 ∧
    (arriveManyW initState (List.range 20)).frameQueue = List.range 16 ∧
    List.range 16 ≠ (List.range 20).drop 4 := by
  refine ⟨?_, by decide, by decide⟩
  rw [arriveMany_frameQueue]
  decide

/-- C2 (amended): with B = 16 and 20 frames decoded in rapid succession
with no display-scheduler consumption, the `src/web` variant drops exactly
the 4 **newest** frames and keeps the 16 oldest in arrival order, while the
`part_001` variant keeps all 20 in arrival order. -/
theorem C2_drop_newest :
    (arriveManyW initState (List.range 20)).frameQueue = (List.range 20).take 16 ∧
    (arriveMany initState (List.range 20)).frameQueue = List.range 20 := by
  refine ⟨by decide, ?_⟩
  rw [arriveMany_frameQueue]
  decide

/-- C3 (counterexample): in the `part_001` variant (the cited code), a
queue of 19 frames is reachable; the scheduler then begins a transition
while the length 19 exceeds `MAX_BUFFER_SIZE / 2 = 8`, discards the oldest
9, and is left with 10 frames — more than `MAX_BUFFER_SIZE / 2 + 1 = 9`. -/
theorem C3_counterexample :
    Reach (arriveMany initState (List.range 19)) ∧
    MAX_BUFFER_SIZE / 2 < (arriveMany initState (List.range 19)).frameQueue.length ∧
    (displayNextFrame (arriveMany initState (List.range 19)) 0).isTransitioning = true ∧
    MAX_BUFFER_SIZE / 2 + 1 <
      (displayNextFrame (arriveMany initState (List.range 19)) 0).frameQueue.length := by
  refine ⟨reach_arriveMany initState Reach.init _, by decide, by decide, by decide⟩

/-- C3 (amended): in the `src/web` variant (whose reachable queue lengths
never exceed `MAX_BUFFER_SIZE`), whenever the scheduler begins a
transition while the queue length `n` exceeds `MAX_BUFFER_SIZE / 2`, it
first discards the oldest `n / 2` entries keeping the freshest suffix in
order, and the post-skip queue length is at most
`MAX_BUFFER_SIZE / 2 + 1`. -/
theorem C3_overflow_skip (s : DisplayState) (now : Nat) (hr : ReachW s)
    (ht : s.isTransitioning = false)
    (hlen : MAX_BUFFER_SIZE / 2 < s.frameQueue.length) :
    (displayNextFrame s now).frameQueue =
      s.frameQueue.drop (s.frameQueue.length / 2) ∧
    (displayNextFrame s now).isTransitioning = true ∧
    (displayNextFrame s now).frameQueue.length ≤ MAX_BUFFER_SIZE / 2 + 1 := by
  have hb := reachW_queue_bound s hr
  have hq : s.frameQueue ≠ [] := by
    intro h
    rw [h] at hlen
    exact absurd hlen (by decide)
  rw [displayNextFrame_fires s now ht hq]
  have hskip : skipOverflow s.frameQueue = s.frameQueue.drop (s.frameQueue.length / 2) := by
    unfold skipOverflow
    rw [if_pos hlen]
  refine ⟨hskip, rfl, ?_⟩
  dsimp only
  rw [hskip]
  simp only [List.length_drop]
  revert hlen hb
  unfold MAX_BUFFER_SIZE
  omega

/-- C3 witness: a reachable `src/web` state with 9 queued frames; the tick
discards the oldest 4 and keeps 5 ≤ 9. -/
theorem C3_witness :
    ReachW (arriveManyW initState (List.range 9)) ∧
    (displayNextFrame (arriveManyW initState (List.range 9)) 0).frameQueue =
      (arriveManyW initState (List.range 9)).frameQueue.drop
        ((arriveManyW initState (List.range 9)).frameQueue.length / 2) ∧
    (displayNextFrame (arriveManyW initState (List.range 9)) 0).frameQueue.length ≤
      MAX_BUFFER_SIZE / 2 + 1 := by
  have hr : ReachW (arriveManyW initState (List.range 9)) :=
    reachW_arriveManyW initState ReachW.init _
  have h := C3_overflow_skip (arriveManyW initState (List.range 9)) 0 hr
    (by decide) (by decide)
  exact ⟨hr, h.1, h.2.2⟩

/-- C4 (counterexample): the 11th consecutive close (the close observed with
the attempt counter at `MAX_RECONNECT_ATTEMPTS = 10`, i.e. `k = 10` in the
claim's 0-indexed range `0 ≤ k ≤ MAX_ATTEMPTS`) schedules **no**
reconnection delay — it escalates a terminal page reload instead — whereas
the claim predicts a scheduled delay of
`min(INITIAL_DELAY * 2^10, MAX_DELAY) = 30000`. -/
theorem C4_counterexample :
    (iterClose 11).scheduledDelay = none ∧
    (iterClose 11).terminalRestart = true ∧
    (iterClose 11).scheduledDelay ≠
      some (min (INITIAL_RECONNECT_DELAY * 2 ^ 10) MAX_RECONNECT_DELAY) := by
  refine ⟨by decide, by decide, by decide⟩

/-- C4 (amended): for every `k` with `0 ≤ k < MAX_RECONNECT_ATTEMPTS`, the
close observed with the attempt counter at `k` schedules a reconnection
after `min(INITIAL_RECONNECT_DELAY * 2^k, MAX_RECONNECT_DELAY)`; the
counter is incremented on each close and reset to 0 on any successful
open; a close observed with the counter already at
`MAX_RECONNECT_ATTEMPTS` (or beyond) schedules no reconnection and
escalates a terminal restart. -/
theorem C4_backoff (k : Nat) (hk : k < MAX_RECONNECT_ATTEMPTS) :
    (wsOnClose (iterClose k)).scheduledDelay =
      some (min (INITIAL_RECONNECT_DELAY * 2 ^ k) MAX_RECONNECT_DELAY) ∧
    (∀ s : ConnState, (wsOnClose s).reconnectAttempts = s.reconnectAttempts + 1) ∧
    (∀ s : ConnState, (wsOnOpen s).reconnectAttempts = 0) ∧
    (∀ s : ConnState, MAX_RECONNECT_ATTEMPTS ≤ s.reconnectAttempts →
      (wsOnClose s).scheduledDelay = none ∧ (wsOnClose s).terminalRestart = true) := by
  refine ⟨?_, ?_, ?_, ?_⟩
  · unfold wsOnClose
    dsimp only
    rw [iterClose_attempts]
    rw [if_pos (by unfold MAX_RECONNECT_ATTEMPTS at hk ⊢; omega)]
  · intro s
    unfold wsOnClose
    dsimp only
    split <;> rfl
  · intro s
    rfl
  · intro s hs
    unfold wsOnClose
    dsimp only
    rw [if_neg (by unfold MAX_RECONNECT_ATTEMPTS at hs ⊢; omega)]
    exact ⟨rfl, rfl⟩

/-- C4 witness: the first close (counter 0) schedules the base delay. -/
theorem C4_witness :
    0 < MAX_RECONNECT_ATTEMPTS ∧
    (wsOnClose (iterClose 0)).scheduledDelay =
      some (min (INITIAL_RECONNECT_DELAY * 2 ^ 0) MAX_RECONNECT_DELAY) :=
  ⟨by decide, (C4_backoff 0 (by decide)).1⟩

/-- C5: a display-refresh tick begins a new transition only when
`isTransitioning` is false (a tick arriving mid-transition is a no-op); in
every reachable state at most one transition is in flight (`began` never
exceeds `completed + 1`, and `isTransitioning` is set exactly when a
transition is pending); the tick itself never swaps the canvas roles or
consumes a frame, while the swap and the pop of the consumed head frame
happen exactly at fade completion. -/
theorem C5_single_transition :
    (∀ s now, s.isTransitioning = true → displayNextFrame s now = s) ∧
    (∀ s, Reach s → s.completed ≤ s.began ∧ s.began ≤ s.completed + 1 ∧
      (s.isTransitioning = true ↔ s.began = s.completed + 1)) ∧
    (∀ s now, (displayNextFrame s now).firstCanvasCurrent = s.firstCanvasCurrent ∧
      (displayNextFrame s now).displayed = s.displayed) ∧
    (∀ s now, (fadeComplete s now).firstCanvasCurrent = !s.firstCanvasCurrent ∧
      (fadeComplete s now).frameQueue = s.frameQueue.drop 1 ∧
      (fadeComplete s now).displayed = s.displayed ++ s.frameQueue.take 1 ∧
      (fadeComplete s now).isTransitioning = false) := by
  refine ⟨displayNextFrame_skip_when_transitioning, reach_transition_counters, ?_, ?_⟩
  · intro s now
    have hg := displayNextFrame_ghost s now
    exact ⟨hg.1, hg.2.1⟩
  · intro s now
    exact ⟨rfl, rfl, rfl, rfl⟩

/-- C5 witness: a tick on a mid-transition state is a no-op, and the
counter invariant holds at the initial state. -/
theorem C5_witness :
    displayNextFrame
      { frameQueue := [3], isTransitioning := true, lastTransitionTime := 0,
        firstCanvasCurrent := true, displayed := [], arrived := [3],
        began := 1, completed := 0 } 9 =
      { frameQueue := [3], isTransitioning := true, lastTransitionTime := 0,
        firstCanvasCurrent := true, displayed := [], arrived := [3],
        began := 1, completed := 0 } ∧
    initState.completed ≤ initState.began :=
  ⟨C5_single_transition.1 _ 9 rfl, (C5_single_transition.2.1 initState Reach.init).1⟩

/-- C6: in every reachable state of the `part_001` variant, the sequence of
frames displayed so far is a sublist (order-preserving, possibly strict
subsequence) of the arrival sequence: frames may be dropped by the
overflow skip but are never displayed out of arrival order. -/
theorem C6_display_order (s : DisplayState) (hs : Reach s) :
    s.displayed.Sublist s.arrived :=
  (List.sublist_append_left s.displayed s.frameQueue).trans
    (reach_displayed_queue_sublist s hs)

/-- C6 witness: after one arrival, one tick and one fade completion the
displayed sequence `[7]` is a sublist of the arrivals `[7]`. -/
theorem C6_witness :
    (fadeComplete (displayNextFrame (wsOnMessage initState 7) 0) 1).displayed.Sublist
      (fadeComplete (displayNextFrame (wsOnMessage initState 7) 0) 1).arrived :=
  C6_display_order _
    (Reach.step
      (Reach.step (Reach.step Reach.init (Step.arrive initState 7))
        (Step.tick (wsOnMessage initState 7) 0))
      (Step.complete (displayNextFrame (wsOnMessage initState 7) 0) 1 (by decide)))

/-- C7: a 401 on the transcription upload clears the credential and the
authentication flag, leaves the transcript store untouched (the segment's
cycle is abandoned), and every subsequent `transcribe` call made while the
credential is still cleared returns immediately without performing an
upload and without changing any state, until a new credential is
supplied. -/
theorem C7_unauthorized_invalidates (s : AuthState) (now : Nat)
    (h : s.serverPassword.isSome = true) :
    ((transcribe s now TResponse.unauthorized).1.serverPassword = none ∧
     (transcribe s now TResponse.unauthorized).1.isAuthenticated = false ∧
     (transcribe s now TResponse.unauthorized).1.transcripts = s.transcripts ∧
     (transcribe s now TResponse.unauthorized).2 = true) ∧
    (∀ (s' : AuthState) (now' : Nat) (resp : TResponse), s'.serverPassword = none →
      transcribe s' now' resp = (s', false)) := by
  constructor
  · obtain ⟨pw, hpw⟩ := Option.isSome_iff_exists.mp h
    unfold transcribe
    rw [hpw]
    exact ⟨rfl, rfl, rfl, rfl⟩
  · intro s' now' resp hnone
    unfold transcribe
    rw [hnone]

/-- C7 witness: a concrete 401 clears the credential, and a later
transcription attempt with the cleared credential performs no upload. -/
theorem C7_witness :
    (transcribe sampleAuth 0 TResponse.unauthorized).1.serverPassword = none ∧
    transcribe ((transcribe sampleAuth 0 TResponse.unauthorized).1) 5
        (TResponse.ok "hello") =
      ((transcribe sampleAuth 0 TResponse.unauthorized).1, false) :=
  ⟨(C7_unauthorized_invalidates sampleAuth 0 rfl).1.1,
   (C7_unauthorized_invalidates sampleAuth 0 rfl).2 _ 5 (TResponse.ok "hello")
     (C7_unauthorized_invalidates sampleAuth 0 rfl).1.1⟩

/-- C8 (counterexample): a successful response whose text is the single
space `" "` — whitespace-only, hence empty after trimming — **does**
produce a caption entry, because the code checks JavaScript truthiness
(`if (data.text)`) and a whitespace-only string is truthy; no trimming is
applied. -/
theorem C8_counterexample :
    (transcribe sampleAuth 0 (TResponse.ok " ")).1.transcripts =
      [{ text := " ", timestamp := 0 }] ∧
    (" ").toList.all Char.isWhitespace = true := by
  exact ⟨by decide, by decide⟩

/-- C8 (amended): when the upload succeeds, the returned text becomes a new
caption entry if and only if it is non-empty as-is (no whitespace
trimming): a non-empty text — including whitespace-only text — is appended
to the store, and an empty text leaves the state unchanged. -/
theorem C8_entry_iff_nonempty (s : AuthState) (now : Nat) (text : String)
    (h : s.serverPassword.isSome = true) :
    (text ≠ "" →
      (transcribe s now (TResponse.ok text)).1 = addTranscript s text now ∧
      ({ text := text, timestamp := now } : TranscriptEntry) ∈
        (transcribe s now (TResponse.ok text)).1.transcripts) ∧
    (text = "" → (transcribe s now (TResponse.ok text)).1 = s) := by
  obtain ⟨pw, hpw⟩ := Option.isSome_iff_exists.mp h
  constructor
  · intro hne
    unfold transcribe
    rw [hpw]
    dsimp only
    rw [if_pos hne]
    refine ⟨rfl, ?_⟩
    unfold addTranscript
    dsimp only
    apply List.mem_filter.mpr
    refine ⟨List.mem_append.mpr (Or.inr (List.mem_singleton.mpr rfl)), ?_⟩
    simp [SCROLL_DURATION]
  · intro he
    unfold transcribe
    rw [hpw]
    dsimp only
    rw [if_neg (by simp [he])]

/-- C8 witness: the amended theorem at a non-empty and an empty text. -/
theorem C8_witness :
    (transcribe sampleAuth 3 (TResponse.ok "hi")).1 =
      addTranscript sampleAuth "hi" 3 ∧
    (transcribe sampleAuth 3 (TResponse.ok "")).1 = sampleAuth :=
  ⟨((C8_entry_iff_nonempty sampleAuth 3 "hi" rfl).1 (by decide)).1,
   (C8_entry_iff_nonempty sampleAuth 3 "" rfl).2 rfl⟩

/-- C9: a sending tick transmits only when at least `FRAME_INTERVAL` has
elapsed since the last successful send and the connection is up and the
socket open; in every other case the tick leaves the state completely
unchanged (the frame is dropped, never queued); consequently along any run
of ticks the successive send times are at least `FRAME_INTERVAL` apart —
at most one outbound frame per `FRAME_INTERVAL`, with no backlog. -/
theorem C9_outbound_throttle :
    (∀ (s : SendState) (now : Nat) (c o : Bool),
      ¬(FRAME_INTERVAL ≤ now - s.lastFrameTime ∧ c = true ∧ o = true) →
        sendFrame s now c o = s) ∧
    (∀ (s : SendState) (now : Nat) (c o : Bool),
      FRAME_INTERVAL ≤ now - s.lastFrameTime → c = true → o = true →
        sendFrame s now c o =
          { lastFrameTime := now, sentTimes := s.sentTimes ++ [now] }) ∧
    (∀ ts : List (Nat × Bool × Bool), gapOK (runSend initSend ts).sentTimes) := by
  refine ⟨?_, ?_, ?_⟩
  · intro s now c o hn
    unfold sendFrame
    by_cases hlt : now - s.lastFrameTime < FRAME_INTERVAL
    · rw [if_pos hlt]
    · rw [if_neg hlt]
      rw [if_neg (fun hco => hn
        ⟨Nat.le_of_not_lt hlt, (Bool.and_eq_true c o).mp hco⟩)]
  · intro s now c o hge hc ho
    unfold sendFrame
    rw [if_neg (Nat.not_lt.mpr hge), hc, ho]
    rfl
  · intro ts
    exact runSend_inv ts initSend
      ⟨List.chain'_nil, fun t ht => absurd ht (List.not_mem_nil t)⟩

/-- C9 witness: a premature tick is dropped, a due tick sends, and a
concrete run keeps its send times `FRAME_INTERVAL` apart. -/
theorem C9_witness :
    sendFrame initSend 100 true true = initSend ∧
    sendFrame initSend 250 true true =
      { lastFrameTime := 250, sentTimes := initSend.sentTimes ++ [250] } ∧
    gapOK (runSend initSend
      [(250, true, true), (300, true, true), (600, true, true)]).sentTimes := by
  refine ⟨C9_outbound_throttle.1 initSend 100 true true ?_,
          C9_outbound_throttle.2.1 initSend 250 true true (by decide) rfl rfl,
          C9_outbound_throttle.2.2 _⟩
  intro hc
  exact absurd hc.1 (by decide)

/-- C10: when the recorder stops with no buffered audio chunks, the stop
handler returns immediately: no blob is built, no upload is performed, and
the auth/caption state (and chunk buffer) are unchanged. -/
theorem C10_empty_segment (s : AuthState) (now : Nat) (resp : TResponse) :
    mediaRecorderOnStop s [] now resp = (s, [], none, false) := rfl


end MagicMirror
